import Mathlib

set_option maxHeartbeats 1000000
set_option maxRecDepth 4000

/-!
Verification of the gocql-gen schema-driven DAO/DTO source generator.

The definitions below are a shallow embedding of the generator's two Go
source files: the batch generator (read from a persist configuration,
one emission model per table, rendered through `_DAOTemplate`) and the
legacy single-table generator (`gocql-gen.go`).  Pure string-building
methods of the emission model `_DAOModel` are translated directly;
the per-column type-mapping switch of `main` is `mapGoType`; the
column loop of `main` is `buildStep`/`buildModel`; template rendering
is modelled by a fragment list faithful to `_DAOTemplate`, with the
two external effects (reading and executing the boilerplate template
file, and JSON-marshalling the model into the header comment) passed
in as function parameters.  Fatal `log.Fatal` exits are modelled by
`Option`: `none` means the run aborts with no output.
-/

/-! ## Schema data model (struct `columnDef`, `tableDef`, `persistDef` of the source) -/

structure columnDef where
  Name : String
  CqlType : String
  Key : String
  DeserializeFromBlob : String
deriving DecidableEq, Repr

structure modelDef where
  Package : String
  Location : String
deriving DecidableEq, Repr

structure tableDef where
  Model : String
  Table : String
  DAO : String
  GeneratedName : String
  Columns : List columnDef
deriving DecidableEq, Repr

structure persistDef where
  Keyspace : String
  Package : String
  BoilerPlate : String
  AdditionalImports : List String
  ModelImport : String
  ModelGeneration : Option modelDef
  Tables : List tableDef
deriving DecidableEq, Repr

/-- Struct `param` of the source: one column of the emission model. -/
structure param where
  Name : String
  GoType : String
  CqlType : String
  SerializedType : String
deriving DecidableEq, Repr

/-! ## The collection regex

`COLLECTION_REGEX = list<(.*)>|set<(.*)>` is applied with Go's
`FindStringSubmatch`: unanchored leftmost-first search, first
alternative preferred at a given start, `(.*)` greedy and never
matching a newline.  We model a string as its list of characters
(runes); the ASCII literals `list<`, `set<`, `>` make rune-level
prefix matching faithful to Go's byte-level search. -/

/-- The part of `cs` strictly before the last `>` of `cs`, if `cs`
contains a `>` at all.  This is what the greedy `(.*)` captures once
the text has been truncated to the newline-free stretch. -/
def splitLastGt : List Char → Option (List Char)
  | [] => none
  | c :: cs =>
    match splitLastGt cs with
    | some r => some (c :: r)
    | none => if c = '>' then some [] else none

/-- `(.*)` cannot cross a newline: the searchable stretch after the
opening bracket. -/
def greedyDot (cs : List Char) : List Char :=
  cs.takeWhile (fun c => !(c == '\n'))

/-- Leftmost-first match of `list<(.*)>|set<(.*)>` against the suffixes
of the input, returning the two capture groups (the one belonging to
the alternative that did not match is empty, as in Go's submatch
slice). -/
def findCollectionMatch : List Char → Option (List Char × List Char)
  | [] => none
  | c :: cs =>
    if List.isPrefixOf "list<".data (c :: cs) then
      match splitLastGt (greedyDot ((c :: cs).drop 5)) with
      | some g => some (g, [])
      | none => findCollectionMatch cs
    else if List.isPrefixOf "set<".data (c :: cs) then
      match splitLastGt (greedyDot ((c :: cs).drop 4)) with
      | some g => some ([], g)
      | none => findCollectionMatch cs
    else findCollectionMatch cs

/-- The element type the generator extracts from a `list<T>`/`set<T>`
storage type: `t := match[1]; if t == "" { t = match[2] }` in the
source. -/
def collectionElem (cql : String) : Option String :=
  match findCollectionMatch cql.data with
  | none => none
  | some (g1, g2) => some (if g1 = [] then String.mk g2 else String.mk g1)

/-! ## The type mapper (the per-column switch in `main` of the batch generator) -/

/-- Result of mapping one storage type: target Go type, serialized
element type, and the two import flags the switch may set on the
model (`IncludeTime`, `IncludeJson`). -/
structure MappedCol where
  goType : String
  serializedType : String
  includeTime : Bool
  includeJson : Bool
deriving DecidableEq, Repr

/-- The `switch col.CqlType` of the batch generator's `main`
(scalar cases, the two blob-collection cases, then the
`COLLECTION_REGEX` default).  An unmatched storage type leaves the
Go type as the zero-value empty string. -/
def mapGoType (cql deser : String) : MappedCol :=
  if cql = "text" then ⟨"string", "", false, false⟩
  else if cql = "uuid" ∨ cql = "timeuuid" then ⟨"*gocql.UUID", "", false, false⟩
  else if cql = "int" then ⟨"int", "", false, false⟩
  else if cql = "double" then ⟨"float64", "", false, false⟩
  else if cql = "timestamp" then ⟨"*time.Time", "", true, false⟩
  else if cql = "list<blob>" then ⟨"[][]byte", deser, false, !(deser == "")⟩
  else if cql = "map<text,blob>" then ⟨"map[string][]byte", deser, false, !(deser == "")⟩
  else
    match collectionElem cql with
    | none => ⟨"", "", false, false⟩
    | some t =>
      if t = "text" then ⟨"[]string", "", false, false⟩
      else if t = "uuid" ∨ t = "timeuuid" then ⟨"[]*gocql.UUID", "", false, false⟩
      else if t = "timestamp" then ⟨"[]time.Time", "", true, false⟩
      else if t = "int" then ⟨"[]int", "", false, false⟩
      else if t = "double" then ⟨"[]float64", "", false, false⟩
      else if t = "blob" then ⟨"[][]byte", "", false, false⟩
      else ⟨"", "", false, false⟩

/-- The column switch of the legacy single-table generator
(`gocql-gen.go`): a smaller rule set whose default case is the literal
sentinel type `UNKNOWN`.  Returns (GoType, SerializedType). -/
def legacyGoType (cql deser : String) : String × String :=
  if cql = "text" then ("string", "")
  else if cql = "uuid" ∨ cql = "timeuuid" then ("*gocql.UUID", "")
  else if cql = "list<blob>" then ("[][]byte", deser)
  else if cql = "map<string,blob>" then ("map[string][]byte", deser)
  else ("UNKNOWN", "")

/-- `column := &param{Name: col.Name, CqlType: col.CqlType}` plus the
type switch: the emission-model column built for a schema column. -/
def mkParam (c : columnDef) : param :=
  let mc := mapGoType c.CqlType c.DeserializeFromBlob
  ⟨c.Name, mc.goType, c.CqlType, mc.serializedType⟩

/-! ## The emission model (struct `_DAOModel` of the batch generator) -/

@[ext]
structure _DAOModel where
  Package : String
  AdditionalImports : List String
  IncludeTime : Bool
  IncludeJson : Bool
  Model : String
  ModelImport : String
  DAO : String
  BoilerPlate : String
  Keyspace : String
  Table : String
  Columns : List param
  partitioningKeys : List String
  clusteringKeys : List String
  clusteringOrder : List String
  keys : List String
deriving DecidableEq, Repr

/-- `case "cluster", "cluster-asc", "cluster-desc"` of the first key
switch. -/
def isClusterRoleB (k : String) : Bool :=
  k == "cluster" || k == "cluster-asc" || k == "cluster-desc"

/-- A key role that adds the column to the combined `keys` list:
`partition` or one of the three clustering roles. -/
def isKeyRoleB (k : String) : Bool :=
  k == "partition" || isClusterRoleB k

/-- The second key switch: an explicit `name ASC`/`name DESC` entry for
`cluster-asc`/`cluster-desc`, nothing otherwise. -/
def orderEntry (c : columnDef) : Option String :=
  if c.Key = "cluster-asc" then some (c.Name ++ " ASC")
  else if c.Key = "cluster-desc" then some (c.Name ++ " DESC")
  else none

/-- One iteration of the column loop in `main`: the two key-role
switches followed by the type switch and the unconditional
`model.Columns = append(model.Columns, column)`. -/
def buildStep (m : _DAOModel) (c : columnDef) : _DAOModel :=
  let mc := mapGoType c.CqlType c.DeserializeFromBlob
  { m with
    partitioningKeys := m.partitioningKeys ++ (if c.Key == "partition" then [c.Name] else []),
    clusteringKeys := m.clusteringKeys ++ (if isClusterRoleB c.Key then [c.Name] else []),
    keys := m.keys ++ (if isKeyRoleB c.Key then [c.Name] else []),
    clusteringOrder := m.clusteringOrder ++ (orderEntry c).toList,
    Columns := m.Columns ++ [mkParam c],
    IncludeTime := m.IncludeTime || mc.includeTime,
    IncludeJson := m.IncludeJson || mc.includeJson }

/-- The `model := _DAOModel{...}` literal in `main`: configuration
fields copied in, derived state empty, `IncludeTime: false`, all other
fields at their zero values. -/
def initModel (p : persistDef) (t : tableDef) : _DAOModel :=
  { Package := p.Package
    AdditionalImports := p.AdditionalImports
    IncludeTime := false
    IncludeJson := false
    Model := t.Model
    ModelImport := p.ModelImport
    DAO := t.DAO
    BoilerPlate := p.BoilerPlate
    Keyspace := p.Keyspace
    Table := t.Table
    Columns := []
    partitioningKeys := []
    clusteringKeys := []
    clusteringOrder := []
    keys := [] }

/-- The whole column loop of `main` for one table. -/
def buildModel (p : persistDef) (t : tableDef) : _DAOModel :=
  t.Columns.foldl buildStep (initModel p t)

/-! Reference characterizations of the derived per-table state
(what the loop accumulates, expressed as filters over the column list
in column order). -/

def pkOf (cols : List columnDef) : List String :=
  (cols.filter (fun c => c.Key == "partition")).map columnDef.Name

def ckOf (cols : List columnDef) : List String :=
  (cols.filter (fun c => isClusterRoleB c.Key)).map columnDef.Name

def keysOf (cols : List columnDef) : List String :=
  (cols.filter (fun c => isKeyRoleB c.Key)).map columnDef.Name

def orderClausesOf (cols : List columnDef) : List String :=
  cols.filterMap orderEntry

/-! ## Emission-model methods (string building, translated from the
`_DAOModel` methods of the batch generator) -/

/-- `PartitioningKeys`: `log.Fatal` (modelled `none`) on an empty key
set, the bare name for a single key, a parenthesized comma join
otherwise. -/
def _DAOModel.PartitioningKeys (m : _DAOModel) : Option String :=
  match m.partitioningKeys with
  | [] => none
  | [k] => some k
  | ks => some ("(" ++ String.intercalate ", " ks ++ ")")

/-- `ClusteringColumns`: empty, or a leading-comma-joined name list. -/
def _DAOModel.ClusteringColumns (m : _DAOModel) : String :=
  if m.clusteringKeys = [] then ""
  else ", " ++ String.intercalate ", " m.clusteringKeys

/-- `ClusteringOrder`: empty, or the explicit ordering directive. -/
def _DAOModel.ClusteringOrder (m : _DAOModel) : String :=
  if m.clusteringOrder = [] then ""
  else " WITH CLUSTERING ORDER BY (" ++ String.intercalate ", " m.clusteringOrder ++ ")"

def _DAOModel.TableDefinition (m : _DAOModel) : String :=
  String.intercalate ",\n" (m.Columns.map (fun p => "    " ++ p.Name ++ " " ++ p.CqlType))

def _DAOModel.BaseImports (m : _DAOModel) : String :=
  String.intercalate "\n"
    (["\"fmt\""]
      ++ (if m.IncludeTime then ["\"time\""] else [])
      ++ (if m.IncludeJson then ["\"encoding/json\""] else []))

def _DAOModel.CleanAdditionalImports (m : _DAOModel) : String :=
  String.intercalate "\n" (m.AdditionalImports.map (fun im => "  " ++ im))

def _DAOModel.ModelType (m : _DAOModel) : String :=
  if m.ModelImport = "" then m.Model else m.ModelImport ++ "." ++ m.Model

def _DAOModel.GetScanParameters (m : _DAOModel) : String :=
  String.intercalate ", " (m.Columns.map (fun p => "&" ++ p.Name))

def _DAOModel.EmitStream (m : _DAOModel) : String :=
  "stream <- &" ++ m.Model ++ "Stream"

def _DAOModel.InsertFields (m : _DAOModel) : String :=
  String.intercalate ", " (m.Columns.map param.Name)

def _DAOModel.InsertValues (m : _DAOModel) : String :=
  String.intercalate ", " (m.Columns.map (fun _ => "?"))

def _DAOModel.InsertResource (m : _DAOModel) : String :=
  String.intercalate ", "
    (m.Columns.map (fun p => if p.SerializedType = "" then "r." ++ p.Name else p.Name))

def _DAOModel.SelectSingleKeys (m : _DAOModel) : String :=
  String.intercalate ", " m.keys

def _DAOModel.DeleteKeys (m : _DAOModel) : String :=
  String.intercalate ", " (m.keys.map (fun k => "r." ++ k))

/-- `SelectSingle`: the full-key equality predicate of the point
lookup and the delete: every combined key as `name=?`, AND-joined. -/
def _DAOModel.SelectSingle (m : _DAOModel) : String :=
  String.intercalate " AND " (m.keys.map (fun k => k ++ "=?"))

def _DAOModel.SelectListKeys (m : _DAOModel) : String :=
  String.intercalate ", " m.partitioningKeys

def _DAOModel.SelectList (m : _DAOModel) : String :=
  String.intercalate " AND " (m.partitioningKeys.map (fun k => k ++ "=?"))

/-- One entry of `CreateResourceFromParameters`; a serialized column of
any other storage type leaves the zero-value empty entry, exactly as
the Go slice cell stays unassigned. -/
def createResourceEntry (c : param) : String :=
  if c.SerializedType = "" then "          " ++ c.Name ++ ": " ++ c.Name
  else if c.CqlType = "list<blob>" then
    "          " ++ c.Name ++ ": make([]" ++ c.SerializedType ++ ", 0)"
  else if c.CqlType = "map<text,blob>" then
    "          " ++ c.Name ++ ": make(map[string]" ++ c.SerializedType ++ ")"
  else ""

def _DAOModel.CreateResourceFromParameters (m : _DAOModel) : String :=
  String.intercalate ",\n" (m.Columns.map createResourceEntry) ++ ","

/-- The deserialization block `DeserializeParameters` emits for a
serialized `list<blob>` column. -/
def deserializeListBlock (n ser : String) : String :=
  "\n    for _, v := range " ++ n ++ " \x7b\n      var value " ++ ser
    ++ "\n      json.Unmarshal(v, &value)\n      resource." ++ n
    ++ " = append(resource." ++ n ++ ", value)\n    \x7d"

/-- The deserialization block for a serialized `map<text,blob>`
column. -/
def deserializeMapBlock (n ser : String) : String :=
  "\n    for k, v := range " ++ n ++ " \x7b\n      var value " ++ ser
    ++ "\n      json.Unmarshal(v, &value)\n      resource." ++ n
    ++ "[k] = value\n    \x7d"

def deserializeFragment (c : param) : Option String :=
  if c.SerializedType = "" then none
  else if c.CqlType = "list<blob>" then some (deserializeListBlock c.Name c.SerializedType)
  else if c.CqlType = "map<text,blob>" then some (deserializeMapBlock c.Name c.SerializedType)
  else none

def _DAOModel.DeserializeParameters (m : _DAOModel) : String :=
  let deser := m.Columns.filterMap deserializeFragment
  if deser.isEmpty then "" else String.intercalate "\n" deser

/-- The serialization block `SerializeParameters` emits for a
serialized `list<blob>` column: marshal each element; on failure log
and skip the element, otherwise append it. -/
def serializeListBlock (n : String) : String :=
  "\n  " ++ n ++ " := make([][]byte, 0)\n  for _, v := range r." ++ n
    ++ " \x7b\n    if value, err := json.Marshal(v); err == nil \x7b\n      " ++ n
    ++ " = append(" ++ n
    ++ ", value)\n    \x7d else \x7b\n      fmt.Println(\"Could not marshal value:\", err, v)\n    \x7d\n  \x7d"

/-- The serialization block for a serialized `map<text,blob>` column. -/
def serializeMapBlock (n : String) : String :=
  "\n  " ++ n ++ " := make(map[string][]byte)\n  for k, v := range r." ++ n
    ++ " \x7b\n    if value, err := json.Marshal(v); err == nil \x7b\n      " ++ n
    ++ "[k] = value\n    \x7d else \x7b\n      fmt.Println(\"Could not marshal attribute:\", k, err, v)\n    \x7d\n  \x7d"

def serializeFragment (c : param) : Option String :=
  if c.SerializedType = "" then none
  else if c.CqlType = "list<blob>" then some (serializeListBlock c.Name)
  else if c.CqlType = "map<text,blob>" then some (serializeMapBlock c.Name)
  else none

def _DAOModel.SerializeParameters (m : _DAOModel) : String :=
  let ser := m.Columns.filterMap serializeFragment
  if ser.isEmpty then "" else String.intercalate "\n" ser ++ "\n"

def _DAOModel.BaseModelImports (m : _DAOModel) : String :=
  if m.IncludeTime then "\"time\"" else ""

/-- The lower-camel serialization tag: first rune lowered, rest kept
(`utf8.DecodeRuneInString` + `unicode.ToLower`; ASCII lowering, and
the replacement rune on an empty name, as in Go). -/
def jsonTag (n : String) : String :=
  match n.data with
  | [] => String.mk [Char.ofNat 0xFFFD]
  | c :: cs => String.mk (Char.toLower c :: cs)

/-- Remove the first occurrence of `pat` from the character list
(`strings.Replace(s, pat, "", 1)`). -/
def replaceFirstList (pat : List Char) : List Char → List Char
  | [] => []
  | c :: cs =>
    if List.isPrefixOf pat (c :: cs) then (c :: cs).drop pat.length
    else c :: replaceFirstList pat cs

/-- `strings.Contains`: does `pat` occur as a contiguous run? -/
def containsSub (pat : List Char) : List Char → Bool
  | [] => pat.isEmpty
  | c :: cs => List.isPrefixOf pat (c :: cs) || containsSub pat cs

/-- `ModelFields` drops the model-import qualifier from a deserialize
target so the DTO can name the type package-locally. -/
def stripModelImport (mi t : String) : String :=
  if containsSub (mi ++ ".").data t.data then
    String.mk (replaceFirstList (mi ++ ".").data t.data)
  else t

/-- One DTO struct field, as built inside `ModelFields`. -/
def fieldFor (mi : String) (c : param) : String :=
  let jsonName := jsonTag c.Name
  if c.SerializedType = "" then
    c.Name ++ " " ++ c.GoType ++ " `json:\"" ++ jsonName ++ "\"`"
  else
    let t := stripModelImport mi c.SerializedType
    if c.CqlType = "list<blob>" then
      c.Name ++ " []" ++ t ++ " `json:\"" ++ jsonName ++ "\"`"
    else if c.CqlType = "map<text,blob>" then
      c.Name ++ " map[string]" ++ t ++ " `json:\"" ++ jsonName ++ "\"`"
    else ""

def _DAOModel.ModelFields (m : _DAOModel) : String :=
  String.intercalate "\n" (m.Columns.map (fieldFor m.ModelImport))

/-! ## The DAO template

`_DAOTemplate` transcribed as an alternation of literal chunks and
field references.  `{{range .Columns}}{{.Name}} {{.GoType}} ... {{end}}`
is the `rangeCols` fragment, carrying the literal indentation of its
body.  Rendering substitutes the corresponding `_DAOModel` method for
each field fragment (string-valued configuration fields are
substituted verbatim).  Two externals are parameters: `br` evaluates
the caller-supplied boilerplate template file against the model
(`template.ParseFiles` + `Execute`, `none` = fatal), and `jr` is the
JSON marshalling of the model for the header comment.  A fragment
whose method aborts the run renders to `none`. -/

inductive Frag where
  | lit (s : String)
  | rawJSON
  | package
  | baseImports
  | cleanAdditionalImports
  | injectBoilerPlate
  | model
  | modelType
  | dao
  | keyspace
  | table
  | tableDefinition
  | partitioningKeys
  | clusteringColumns
  | clusteringOrder
  | serializeParameters
  | insertFields
  | insertValues
  | insertResource
  | selectSingleKeys
  | selectSingle
  | selectListKeys
  | selectList
  | deleteKeys
  | emitStream
  | getScanParameters
  | createResourceFromParameters
  | deserializeParameters
  | rangeCols (indent : String)
deriving DecidableEq, Repr

def renderFrag (br : String → Option String) (jr : _DAOModel → String)
    (m : _DAOModel) : Frag → Option String
  | .lit s => some s
  | .rawJSON => some (jr m)
  | .package => some m.Package
  | .baseImports => some m.BaseImports
  | .cleanAdditionalImports => some m.CleanAdditionalImports
  | .injectBoilerPlate => if m.BoilerPlate = "" then some "" else br m.BoilerPlate
  | .model => some m.Model
  | .modelType => some m.ModelType
  | .dao => some m.DAO
  | .keyspace => some m.Keyspace
  | .table => some m.Table
  | .tableDefinition => some m.TableDefinition
  | .partitioningKeys => m.PartitioningKeys
  | .clusteringColumns => some m.ClusteringColumns
  | .clusteringOrder => some m.ClusteringOrder
  | .serializeParameters => some m.SerializeParameters
  | .insertFields => some m.InsertFields
  | .insertValues => some m.InsertValues
  | .insertResource => some m.InsertResource
  | .selectSingleKeys => some m.SelectSingleKeys
  | .selectSingle => some m.SelectSingle
  | .selectListKeys => some m.SelectListKeys
  | .selectList => some m.SelectList
  | .deleteKeys => some m.DeleteKeys
  | .emitStream => some m.EmitStream
  | .getScanParameters => some m.GetScanParameters
  | .createResourceFromParameters => some m.CreateResourceFromParameters
  | .deserializeParameters => some m.DeserializeParameters
  | .rangeCols indent =>
      some (String.join (m.Columns.map (fun c => c.Name ++ " " ++ c.GoType ++ "\n" ++ indent)))

def renderFrags (br : String → Option String) (jr : _DAOModel → String)
    (m : _DAOModel) : List Frag → Option String
  | [] => some ""
  | f :: fs =>
    match renderFrag br jr m f, renderFrags br jr m fs with
    | some s, some t => some (s ++ t)
    | _, _ => none
def daoFragsA : List Frag :=
  [
    Frag.lit "// Code generated by \"gocql-gen\"; DO NOT EDIT THIS FILE\n/*\n *\n * Model that generated this code: ",
    Frag.rawJSON,
    Frag.lit "\n *\n */\npackage ",
    Frag.package,
    Frag.lit "\n\nimport (\n",
    Frag.baseImports,
    Frag.lit "\n\n  \"github.com/gocql/gocql\"\n\n",
    Frag.cleanAdditionalImports,
    Frag.lit "\n)\n\n"
  ]

def daoFragsB1 : List Frag :=
  [
    Frag.modelType,
    Frag.lit "\n  ERR error\n\x7d\n\nfunc (dao *",
    Frag.dao,
    Frag.lit ") Init(session *gocql.Session) (error) \x7b\n  return session.Query(`CREATE TABLE IF NOT EXISTS ",
    Frag.keyspace,
    Frag.lit ".",
    Frag.table,
    Frag.lit " (\n",
    Frag.tableDefinition,
    Frag.lit ",\n\n    PRIMARY KEY (",
    Frag.partitioningKeys,
    Frag.clusteringColumns,
    Frag.lit ")\n  )",
    Frag.clusteringOrder,
    Frag.lit ";`).Exec()\n\x7d\n\nfunc (dao *",
    Frag.dao,
    Frag.lit ") Add(r *",
    Frag.modelType,
    Frag.lit ", session *gocql.Session) (*",
    Frag.modelType,
    Frag.lit ", error) \x7b ",
    Frag.serializeParameters,
    Frag.lit "\n  err := session.Query(`INSERT INTO ",
    Frag.keyspace,
    Frag.lit ".",
    Frag.table,
    Frag.lit " (",
    Frag.insertFields,
    Frag.lit ")\n                      VALUES (",
    Frag.insertValues,
    Frag.lit ");`,\n                      ",
    Frag.insertResource,
    Frag.lit ").Exec()\n  if err != nil \x7b\n    return nil, err\n  \x7d\n  return r, nil\n\x7d\n\nfunc (dao *",
    Frag.dao,
    Frag.lit ") Get(",
    Frag.selectSingleKeys,
    Frag.lit " interface\x7b\x7d, _session ...*gocql.Session) (*",
    Frag.modelType,
    Frag.lit ", error) \x7b\n  session, err, close := dao.session(_session...)\n  if err != nil \x7b\n    return nil, err\n  \x7d else if close \x7b\n    defer session.Close()\n  \x7d\n\n  if res, err := dao.list(session, `SELECT ",
    Frag.insertFields,
    Frag.lit " FROM ",
    Frag.keyspace,
    Frag.lit ".",
    Frag.table,
    Frag.lit " WHERE ",
    Frag.selectSingle,
    Frag.lit ";`, ",
    Frag.selectSingleKeys,
    Frag.lit "); err != nil \x7b\n    return nil, err\n  \x7d else if len(res) != 1 \x7b\n    return nil, nil\n  \x7d else \x7b\n    return res[0], nil\n  \x7d\n\x7d\n\nfunc (dao *",
    Frag.dao,
    Frag.lit ") List(",
    Frag.selectListKeys,
    Frag.lit " interface\x7b\x7d, _session ...*gocql.Session) ([]*",
    Frag.modelType,
    Frag.lit ", error) \x7b\n  session, err, close := dao.session(_session...)\n  if err != nil \x7b\n    return nil, err\n  \x7d else if close \x7b\n    defer session.Close()\n  \x7d\n\n  return dao.list(session, `SELECT ",
    Frag.insertFields,
    Frag.lit " FROM ",
    Frag.keyspace,
    Frag.lit ".",
    Frag.table,
    Frag.lit " WHERE ",
    Frag.selectList,
    Frag.lit ";`, ",
    Frag.selectListKeys,
    Frag.lit ")\n\x7d\n\nfunc (dao *",
    Frag.dao,
    Frag.lit ") Stream(",
    Frag.selectListKeys,
    Frag.lit " interface\x7b\x7d) chan *",
    Frag.model,
    Frag.lit "Stream \x7b\n  return dao.stream(`SELECT ",
    Frag.insertFields,
    Frag.lit " FROM ",
    Frag.keyspace,
    Frag.lit ".",
    Frag.table,
    Frag.lit " WHERE ",
    Frag.selectList,
    Frag.lit ";`, ",
    Frag.selectListKeys,
    Frag.lit ")\n\x7d\n\nfunc (dao *",
    Frag.dao,
    Frag.lit ") Delete(r *",
    Frag.modelType,
    Frag.lit ", _session ...*gocql.Session) error \x7b\n  session, err, close := dao.session(_session...)\n  if err != nil \x7b\n    return err\n  \x7d else if close \x7b\n    defer session.Close()\n  \x7d\n\n  return dao.delete(session, `DELETE FROM ",
    Frag.keyspace,
    Frag.lit ".",
    Frag.table,
    Frag.lit " WHERE ",
    Frag.selectSingle,
    Frag.lit ";`, ",
    Frag.deleteKeys,
    Frag.lit ")\n\x7d\n\nfunc (dao *",
    Frag.dao,
    Frag.lit ") session(_session ...*gocql.Session) (*gocql.Session, error, bool) \x7b\n  if _session == nil || len(_session) != 1 || _session[0] == nil \x7b\n    if session, err := dao.createSession(); err != nil \x7b\n      return nil, err, false\n    \x7d else \x7b\n      return session, nil, true\n    \x7d\n  \x7d\n  return _session[0], nil, false\n\x7d\n\nfunc (dao *",
    Frag.dao,
    Frag.lit ") stream(cql string, params ...interface\x7b\x7d) chan *",
    Frag.model,
    Frag.lit "Stream \x7b\n  stream := make(chan *",
    Frag.model,
    Frag.lit "Stream, dao.capacity())\n\n  go func() \x7b\n    defer close(stream)\n\n    if session, err := dao.createSession(); err != nil \x7b\n      fmt.Println(\"Could not initialize sesion to stream resources for ",
    Frag.table,
    Frag.lit "\", err)\n      ",
    Frag.emitStream,
    Frag.lit "\x7bDTO: nil, ERR: err\x7d\n    \x7d else \x7b\n      defer session.Close()\n      session.SetPageSize(dao.pageSize())\n\n      var (\n        ",
    Frag.rangeCols "        ",
    Frag.lit ")\n\n      iter := session.Query(cql, params...).Iter()\n      for iter.Scan(",
    Frag.getScanParameters,
    Frag.lit ") \x7b\n        resource := &",
    Frag.modelType,
    Frag.lit "\x7b\n",
    Frag.createResourceFromParameters,
    Frag.lit "\n        \x7d\n        ",
    Frag.deserializeParameters,
    Frag.lit "\n\n        ",
    Frag.emitStream,
    Frag.lit "\x7bDTO: resource, ERR: nil\x7d\n      \x7d\n\n      if err := iter.Close(); err != nil \x7b\n        fmt.Println(\"Error streaming resources for ",
    Frag.table,
    Frag.lit "\", cql, err)\n        ",
    Frag.emitStream,
    Frag.lit "\x7bDTO: nil, ERR: err\x7d\n      \x7d\n    \x7d\n  \x7d()\n\n  return stream\n\x7d\n\nfunc (dao *",
    Frag.dao,
    Frag.lit ") list(session *gocql.Session, cql string, params ...interface\x7b\x7d) ([]*",
    Frag.modelType,
    Frag.lit ", error) \x7b\n  var (\n    ",
    Frag.rangeCols "    ",
    Frag.lit ")\n\n  session.SetPageSize(dao.pageSize())\n  iter := session.Query(cql, params...).Iter()\n  results := make([]*",
    Frag.modelType,
    Frag.lit ", dao.capacity())\n  for iter.Scan(",
    Frag.getScanParameters,
    Frag.lit ") \x7b\n    resource := &",
    Frag.modelType,
    Frag.lit "\x7b\n",
    Frag.createResourceFromParameters,
    Frag.lit "\n    \x7d\n    ",
    Frag.deserializeParameters,
    Frag.lit "\n\n    results = append(results, resource)\n  \x7d\n\n  if err := iter.Close(); err != nil \x7b\n    fmt.Println(\"Error listing resources for ",
    Frag.table,
    Frag.lit "\", cql, err)\n    return nil, err\n  \x7d\n\n  return results, nil\n\x7d\n\nfunc (dao *",
    Frag.dao,
    Frag.lit ") delete(session *gocql.Session, cql string, params ...interface\x7b\x7d) error \x7b\n  return session.Query(cql, params...).Exec()\n\x7d\n\n"
  ]

/-- Everything after the boilerplate hook: the stream-record type
declaration comes first, then the rest of the DAO. -/
def daoFragsB : List Frag :=
  Frag.lit "\n\ntype " :: Frag.model :: Frag.lit "Stream struct \x7b\n  DTO *" :: daoFragsB1

/-- The full template: the boilerplate hook sits between the import
block and the stream-record type declaration. -/
def daoFrags : List Frag :=
  daoFragsA ++ Frag.injectBoilerPlate :: daoFragsB

/-- Rendering the DAO artifact for one emission model (`none` = the
run aborts before producing the artifact). -/
def renderDAO (br : String → Option String) (jr : _DAOModel → String)
    (m : _DAOModel) : Option String :=
  renderFrags br jr m daoFrags

/-- The text the fragments before the boilerplate hook render to
(header comment, package clause and import block). -/
def renderA (jr : _DAOModel → String) (m : _DAOModel) : String :=
  "// Code generated by \"gocql-gen\"; DO NOT EDIT THIS FILE\n/*\n *\n * Model that generated this code: "
    ++ (jr m ++ ("\n *\n */\npackage "
    ++ (m.Package ++ ("\n\nimport (\n"
    ++ (m.BaseImports ++ ("\n\n  \"github.com/gocql/gocql\"\n\n"
    ++ (m.CleanAdditionalImports ++ "\n)\n\n")))))))

/-! ## Shared helper lemmas -/

theorem buildStep_keys (m : _DAOModel) (c : columnDef) :
    (buildStep m c).keys = m.keys ++ (if isKeyRoleB c.Key then [c.Name] else []) := rfl

theorem buildStep_pk (m : _DAOModel) (c : columnDef) :
    (buildStep m c).partitioningKeys
      = m.partitioningKeys ++ (if c.Key == "partition" then [c.Name] else []) := rfl

theorem buildStep_ck (m : _DAOModel) (c : columnDef) :
    (buildStep m c).clusteringKeys
      = m.clusteringKeys ++ (if isClusterRoleB c.Key then [c.Name] else []) := rfl

theorem buildStep_order (m : _DAOModel) (c : columnDef) :
    (buildStep m c).clusteringOrder = m.clusteringOrder ++ (orderEntry c).toList := rfl

theorem buildStep_Columns (m : _DAOModel) (c : columnDef) :
    (buildStep m c).Columns = m.Columns ++ [mkParam c] := rfl

theorem keysOf_cons (c : columnDef) (cs : List columnDef) :
    keysOf (c :: cs) = (if isKeyRoleB c.Key then [c.Name] else []) ++ keysOf cs := by
  by_cases h : isKeyRoleB c.Key = true <;> simp [keysOf, List.filter_cons, h]

theorem pkOf_cons (c : columnDef) (cs : List columnDef) :
    pkOf (c :: cs) = (if c.Key == "partition" then [c.Name] else []) ++ pkOf cs := by
  by_cases h : (c.Key == "partition") = true <;> simp [pkOf, List.filter_cons, h]

theorem ckOf_cons (c : columnDef) (cs : List columnDef) :
    ckOf (c :: cs) = (if isClusterRoleB c.Key then [c.Name] else []) ++ ckOf cs := by
  by_cases h : isClusterRoleB c.Key = true <;> simp [ckOf, List.filter_cons, h]

theorem orderClausesOf_cons (c : columnDef) (cs : List columnDef) :
    orderClausesOf (c :: cs) = (orderEntry c).toList ++ orderClausesOf cs := by
  cases h : orderEntry c <;> simp [orderClausesOf, List.filterMap_cons, h]

theorem foldl_keys (cols : List columnDef) :
    ∀ m : _DAOModel, (List.foldl buildStep m cols).keys = m.keys ++ keysOf cols := by
  induction cols with
  | nil => intro m; simp [keysOf]
  | cons c cs ih =>
    intro m
    rw [List.foldl_cons, ih, buildStep_keys, keysOf_cons, List.append_assoc]

theorem foldl_pk (cols : List columnDef) :
    ∀ m : _DAOModel,
      (List.foldl buildStep m cols).partitioningKeys = m.partitioningKeys ++ pkOf cols := by
  induction cols with
  | nil => intro m; simp [pkOf]
  | cons c cs ih =>
    intro m
    rw [List.foldl_cons, ih, buildStep_pk, pkOf_cons, List.append_assoc]

theorem foldl_ck (cols : List columnDef) :
    ∀ m : _DAOModel,
      (List.foldl buildStep m cols).clusteringKeys = m.clusteringKeys ++ ckOf cols := by
  induction cols with
  | nil => intro m; simp [ckOf]
  | cons c cs ih =>
    intro m
    rw [List.foldl_cons, ih, buildStep_ck, ckOf_cons, List.append_assoc]

theorem foldl_order (cols : List columnDef) :
    ∀ m : _DAOModel,
      (List.foldl buildStep m cols).clusteringOrder = m.clusteringOrder ++ orderClausesOf cols := by
  induction cols with
  | nil => intro m; simp [orderClausesOf]
  | cons c cs ih =>
    intro m
    rw [List.foldl_cons, ih, buildStep_order, orderClausesOf_cons, List.append_assoc]

theorem foldl_Columns (cols : List columnDef) :
    ∀ m : _DAOModel,
      (List.foldl buildStep m cols).Columns = m.Columns ++ cols.map mkParam := by
  induction cols with
  | nil => intro m; simp
  | cons c cs ih =>
    intro m
    rw [List.foldl_cons, ih, buildStep_Columns, List.map_cons, List.append_assoc]
    rfl

/-- The structured-serialization flag contributed by a column list. -/
def jsonFlagOf (cols : List columnDef) : Bool :=
  cols.any (fun c => (mapGoType c.CqlType c.DeserializeFromBlob).includeJson)

/-- The time-support flag contributed by a column list. -/
def timeFlagOf (cols : List columnDef) : Bool :=
  cols.any (fun c => (mapGoType c.CqlType c.DeserializeFromBlob).includeTime)

theorem buildStep_IncludeJson (m : _DAOModel) (c : columnDef) :
    (buildStep m c).IncludeJson
      = (m.IncludeJson || (mapGoType c.CqlType c.DeserializeFromBlob).includeJson) := rfl

theorem buildStep_IncludeTime (m : _DAOModel) (c : columnDef) :
    (buildStep m c).IncludeTime
      = (m.IncludeTime || (mapGoType c.CqlType c.DeserializeFromBlob).includeTime) := rfl

theorem foldl_IncludeJson (cols : List columnDef) :
    ∀ m : _DAOModel,
      (List.foldl buildStep m cols).IncludeJson = (m.IncludeJson || jsonFlagOf cols) := by
  induction cols with
  | nil => intro m; simp [jsonFlagOf]
  | cons c cs ih =>
    intro m
    rw [List.foldl_cons, ih, buildStep_IncludeJson]
    simp [jsonFlagOf, List.any_cons, Bool.or_assoc]

theorem foldl_IncludeTime (cols : List columnDef) :
    ∀ m : _DAOModel,
      (List.foldl buildStep m cols).IncludeTime = (m.IncludeTime || timeFlagOf cols) := by
  induction cols with
  | nil => intro m; simp [timeFlagOf]
  | cons c cs ih =>
    intro m
    rw [List.foldl_cons, ih, buildStep_IncludeTime]
    simp [timeFlagOf, List.any_cons, Bool.or_assoc]

theorem buildModel_keys (p : persistDef) (t : tableDef) :
    (buildModel p t).keys = keysOf t.Columns := by
  rw [buildModel, foldl_keys]; rfl

theorem buildModel_pk (p : persistDef) (t : tableDef) :
    (buildModel p t).partitioningKeys = pkOf t.Columns := by
  rw [buildModel, foldl_pk]; rfl

theorem buildModel_ck (p : persistDef) (t : tableDef) :
    (buildModel p t).clusteringKeys = ckOf t.Columns := by
  rw [buildModel, foldl_ck]; rfl

theorem buildModel_order (p : persistDef) (t : tableDef) :
    (buildModel p t).clusteringOrder = orderClausesOf t.Columns := by
  rw [buildModel, foldl_order]; rfl

theorem buildModel_Columns (p : persistDef) (t : tableDef) :
    (buildModel p t).Columns = t.Columns.map mkParam := by
  rw [buildModel, foldl_Columns]; rfl

theorem buildModel_IncludeJson (p : persistDef) (t : tableDef) :
    (buildModel p t).IncludeJson = jsonFlagOf t.Columns := by
  rw [buildModel, foldl_IncludeJson]; rfl

theorem buildModel_IncludeTime (p : persistDef) (t : tableDef) :
    (buildModel p t).IncludeTime = timeFlagOf t.Columns := by
  rw [buildModel, foldl_IncludeTime]; rfl

theorem keysOf_perm (cols : List columnDef) :
    List.Perm (keysOf cols) (pkOf cols ++ ckOf cols) := by
  induction cols with
  | nil => simp [keysOf, pkOf, ckOf]
  | cons c cs ih =>
    rw [keysOf_cons, pkOf_cons, ckOf_cons]
    by_cases hp : (c.Key == "partition") = true
    · have hpe : c.Key = "partition" := by simpa using hp
      have hc : isClusterRoleB c.Key = false := by simp [isClusterRoleB, hpe]
      have hk : isKeyRoleB c.Key = true := by simp [isKeyRoleB, hp]
      simp only [hk, hp, hc, if_true, if_false, Bool.false_eq_true, List.cons_append,
        List.nil_append, List.singleton_append]
      exact ih.cons c.Name
    · by_cases hcl : isClusterRoleB c.Key = true
      · have hk : isKeyRoleB c.Key = true := by simp [isKeyRoleB, hcl]
        simp only [hk, hp, hcl, if_true, if_false, Bool.false_eq_true, List.cons_append,
          List.nil_append, List.singleton_append]
        exact (ih.cons c.Name).trans List.perm_middle.symm
      · have hk : isKeyRoleB c.Key = false := by
          simp [isKeyRoleB, hcl]
          simpa using hp
        simp only [hk, hp, hcl, if_true, if_false, Bool.false_eq_true, List.nil_append]
        exact ih

theorem strAppendRightInj (s : String) : Function.Injective (fun k : String => k ++ s) := by
  intro a b h
  apply String.ext
  have h2 := congrArg String.data h
  simp only [String.data_append] at h2
  exact List.append_cancel_right h2

theorem renderFrags_append_some (br : String → Option String) (jr : _DAOModel → String)
    (m : _DAOModel) {l1 l2 : List Frag} {a b : String}
    (h1 : renderFrags br jr m l1 = some a) (h2 : renderFrags br jr m l2 = some b) :
    renderFrags br jr m (l1 ++ l2) = some (a ++ b) := by
  induction l1 generalizing a with
  | nil =>
    rw [renderFrags] at h1
    injection h1 with h1
    subst h1
    simpa [String.empty_append] using h2
  | cons f fs ih =>
    rw [renderFrags] at h1
    rw [List.cons_append, renderFrags]
    cases hf : renderFrag br jr m f with
    | none =>
      rw [hf] at h1
      exact absurd (show (none : Option String) = some a from h1) (by simp)
    | some s =>
      rw [hf] at h1
      cases hfs : renderFrags br jr m fs with
      | none =>
        rw [hfs] at h1
        exact absurd (show (none : Option String) = some a from h1) (by simp)
      | some t =>
        rw [hfs] at h1
        rw [ih hfs]
        have h1' : s ++ t = a := by injection (show some (s ++ t) = some a from h1)
        rw [← h1', String.append_assoc]

theorem renderFrags_none (br : String → Option String) (jr : _DAOModel → String)
    (m : _DAOModel) {l : List Frag} {f : Frag}
    (hm : f ∈ l) (hf : renderFrag br jr m f = none) :
    renderFrags br jr m l = none := by
  induction l with
  | nil => cases hm
  | cons g gs ih =>
    rw [renderFrags]
    rcases List.mem_cons.1 hm with h | h
    · rw [h] at hf; rw [hf]
    · rw [ih h]; cases renderFrag br jr m g <;> rfl

theorem renderFragsA_eq (br : String → Option String) (jr : _DAOModel → String) (m : _DAOModel) :
    renderFrags br jr m daoFragsA = some (renderA jr m) := by
  simp [daoFragsA, renderFrags, renderFrag, renderA, String.append_empty]

/-! ## Example configuration used by the witnesses -/

def exP : persistDef :=
  { Keyspace := "ks", Package := "dao", BoilerPlate := "", AdditionalImports := [],
    ModelImport := "model", ModelGeneration := none, Tables := [] }

def exCols : List columnDef :=
  [{ Name := "Id", CqlType := "uuid", Key := "partition", DeserializeFromBlob := "" },
   { Name := "Ts", CqlType := "timestamp", Key := "cluster-desc", DeserializeFromBlob := "" },
   { Name := "Tags", CqlType := "list<blob>", Key := "", DeserializeFromBlob := "Tag" }]

def exT : tableDef :=
  { Model := "Widget", Table := "widgets", DAO := "WidgetDAO", GeneratedName := "widget",
    Columns := exCols }

def exM1 : _DAOModel := buildModel exP exT

def exT2 : tableDef :=
  { exT with Columns :=
      [{ Name := "K1", CqlType := "text", Key := "partition", DeserializeFromBlob := "" },
       { Name := "K2", CqlType := "text", Key := "partition", DeserializeFromBlob := "" }] }

def exM2 : _DAOModel := buildModel exP exT2

def exM0 : _DAOModel := initModel exP exT

def exBr : String → Option String := fun _ => some "// boilerplate\n"

def exJr : _DAOModel → String := fun _ => "model-json"

/-! ## Claims -/

/-- Claim C3: for every scalar storage type in the mapping table,
queried with an empty deserialize target, the type mapper returns the
documented target type with no serialization metadata, and only
`timestamp` sets the time-support import flag. -/
theorem scalar_type_mapping :
    mapGoType "text" "" = ⟨"string", "", false, false⟩
    ∧ mapGoType "uuid" "" = ⟨"*gocql.UUID", "", false, false⟩
    ∧ mapGoType "timeuuid" "" = ⟨"*gocql.UUID", "", false, false⟩
    ∧ mapGoType "int" "" = ⟨"int", "", false, false⟩
    ∧ mapGoType "double" "" = ⟨"float64", "", false, false⟩
    ∧ mapGoType "timestamp" "" = ⟨"*time.Time", "", true, false⟩ := by
  decide

/-- Claim C7, counterexample: the batch generator's type mapper sends
the unrecognized storage type `frobnicate` to the empty string, not to
any sentinel `unknown`/`UNKNOWN` type; only the legacy single-table
mapper produces the sentinel. -/
theorem unknown_sentinel_counterexample :
    (mapGoType "frobnicate" "").goType = ""
    ∧ (mapGoType "frobnicate" "").goType ≠ "UNKNOWN"
    ∧ (mapGoType "frobnicate" "").goType ≠ "unknown"
    ∧ (legacyGoType "frobnicate" "").1 = "UNKNOWN" := by
  decide

/-- Claim C7, amended: a storage type matching no scalar rule, no
blob-collection rule and no `list<T>`/`set<T>` rule with a known
element type is left with the empty target type by the batch
generator's mapper, while the legacy single-table mapper sends every
storage type outside its rule set to the sentinel `UNKNOWN`. -/
theorem unrecognized_type_mapping (s d : String)
    (hs : s ∉ (["text", "uuid", "timeuuid", "int", "double", "timestamp",
        "list<blob>", "map<text,blob>"] : List String))
    (he : ∀ u, collectionElem s = some u →
        u ∉ (["text", "uuid", "timeuuid", "timestamp", "int", "double", "blob"] : List String)) :
    (mapGoType s d).goType = ""
    ∧ (s ∉ (["text", "uuid", "timeuuid", "list<blob>", "map<string,blob>"] : List String) →
        (legacyGoType s d).1 = "UNKNOWN") := by
  simp only [List.mem_cons, List.not_mem_nil, or_false, not_or] at hs
  obtain ⟨h1, h2, h3, h4, h5, h6, h7, h8⟩ := hs
  constructor
  · simp only [mapGoType]
    rw [if_neg h1, if_neg (not_or.2 ⟨h2, h3⟩), if_neg h4, if_neg h5, if_neg h6,
      if_neg h7, if_neg h8]
    cases hcol : collectionElem s with
    | none => rfl
    | some u =>
      have hu := he u hcol
      simp only [List.mem_cons, List.not_mem_nil, or_false, not_or] at hu
      obtain ⟨u1, u2, u3, u4, u5, u6, u7⟩ := hu
      simp [u1, u2, u3, u4, u5, u6, u7]
  · intro hs2
    simp only [List.mem_cons, List.not_mem_nil, or_false, not_or] at hs2
    obtain ⟨g1, g2, g3, g4, g5⟩ := hs2
    simp only [legacyGoType]
    rw [if_neg g1, if_neg (not_or.2 ⟨g2, g3⟩), if_neg g4, if_neg g5]

/-- Witness for the amended C7 at the concrete input `frobnicate`. -/
theorem unrecognized_type_mapping_witness :
    ("frobnicate" ∉ (["text", "uuid", "timeuuid", "int", "double", "timestamp",
        "list<blob>", "map<text,blob>"] : List String))
    ∧ (∀ u, collectionElem "frobnicate" = some u →
        u ∉ (["text", "uuid", "timeuuid", "timestamp", "int", "double", "blob"] : List String))
    ∧ ((mapGoType "frobnicate" "").goType = ""
      ∧ ("frobnicate" ∉ (["text", "uuid", "timeuuid", "list<blob>", "map<string,blob>"] : List String) →
          (legacyGoType "frobnicate" "").1 = "UNKNOWN")) := by
  have hcol : collectionElem "frobnicate" = none := by decide
  have he : ∀ u, collectionElem "frobnicate" = some u →
      u ∉ (["text", "uuid", "timeuuid", "timestamp", "int", "double", "blob"] : List String) := by
    intro u hu
    rw [hcol] at hu
    exact absurd hu (by simp)
  exact ⟨by decide, he, unrecognized_type_mapping "frobnicate" "" (by decide) he⟩

/-- Claim C4: a single partition key yields the bare unparenthesized
name; two or more yield the parenthesized comma-joined list in
order. -/
theorem partition_key_clause (m : _DAOModel) :
    (∀ k, m.partitioningKeys = [k] → m.PartitioningKeys = some k)
    ∧ (∀ k1 k2 ks, m.partitioningKeys = k1 :: k2 :: ks →
        m.PartitioningKeys
          = some ("(" ++ String.intercalate ", " (k1 :: k2 :: ks) ++ ")")) := by
  constructor
  · intro k hk
    unfold _DAOModel.PartitioningKeys
    rw [hk]
  · intro k1 k2 ks hk
    unfold _DAOModel.PartitioningKeys
    rw [hk]

/-- Witness for C4: one- and two-key tables built by the generator. -/
theorem partition_key_clause_witness :
    exM1.partitioningKeys = ["Id"] ∧ exM1.PartitioningKeys = some "Id"
    ∧ exM2.partitioningKeys = ["K1", "K2"] ∧ exM2.PartitioningKeys = some "(K1, K2)" := by
  refine ⟨by decide, ?_, by decide, ?_⟩
  · exact (partition_key_clause exM1).1 "Id" (by decide)
  · exact (partition_key_clause exM2).2 "K1" "K2" [] (by decide)

/-- Claim C5: a table with no partition keys makes the partition-key
clause fail fatally — no clause is produced and the whole DAO render
aborts with no output. -/
theorem empty_partition_keys_abort (m : _DAOModel) (h : m.partitioningKeys = []) :
    m.PartitioningKeys = none
    ∧ ∀ (br : String → Option String) (jr : _DAOModel → String), renderDAO br jr m = none := by
  have hpk : m.PartitioningKeys = none := by
    unfold _DAOModel.PartitioningKeys
    rw [h]
  refine ⟨hpk, fun br jr => ?_⟩
  have hmem : Frag.partitioningKeys ∈ daoFrags := by decide
  exact renderFrags_none br jr m hmem hpk

/-- Witness for C5 at a concrete keyless emission model. -/
theorem empty_partition_keys_abort_witness :
    exM0.partitioningKeys = [] ∧ exM0.PartitioningKeys = none
    ∧ renderDAO exBr exJr exM0 = none := by
  refine ⟨rfl, (empty_partition_keys_abort exM0 rfl).1, ?_⟩
  exact (empty_partition_keys_abort exM0 rfl).2 exBr exJr

/-- Claim C1: the single-row lookup predicate produced by
`SelectSingle` is the AND-join of one `name=?` equality per combined
key, where the combined key list is exactly the partition- and
clustering-role columns in column order; it is a permutation of
`partitionKeys ++ clusteringKeys`, and (for a table with distinct
column names) each key contributes exactly one equality. -/
theorem selectSingle_full_key_equality (p : persistDef) (t : tableDef)
    (hnd : (t.Columns.map columnDef.Name).Nodup) :
    (buildModel p t).SelectSingle
        = String.intercalate " AND " (((buildModel p t).keys).map (fun k => k ++ "=?"))
    ∧ (buildModel p t).keys = keysOf t.Columns
    ∧ List.Perm ((buildModel p t).keys)
        ((buildModel p t).partitioningKeys ++ (buildModel p t).clusteringKeys)
    ∧ ∀ k ∈ (buildModel p t).partitioningKeys ++ (buildModel p t).clusteringKeys,
        List.count (k ++ "=?") (((buildModel p t).keys).map (fun k2 => k2 ++ "=?")) = 1 := by
  have hperm : List.Perm ((buildModel p t).keys)
      ((buildModel p t).partitioningKeys ++ (buildModel p t).clusteringKeys) := by
    rw [buildModel_keys, buildModel_pk, buildModel_ck]
    exact keysOf_perm t.Columns
  refine ⟨rfl, buildModel_keys p t, hperm, ?_⟩
  intro k hk
  have hkmem : k ∈ (buildModel p t).keys := hperm.mem_iff.2 hk
  have hnodup : ((buildModel p t).keys).Nodup := by
    rw [buildModel_keys]
    exact List.Nodup.sublist (List.Sublist.map _ (List.filter_sublist _)) hnd
  have hcount := List.count_map_of_injective ((buildModel p t).keys)
    (fun k2 => k2 ++ "=?") (strAppendRightInj "=?") k
  calc List.count (k ++ "=?") (((buildModel p t).keys).map (fun k2 => k2 ++ "=?"))
      = List.count k ((buildModel p t).keys) := hcount
    _ = 1 := List.count_eq_one_of_mem hnodup hkmem

/-- Witness for C1 on a concrete three-column table. -/
theorem selectSingle_full_key_equality_witness :
    ((exT.Columns.map columnDef.Name).Nodup)
    ∧ ((buildModel exP exT).SelectSingle
        = String.intercalate " AND " (((buildModel exP exT).keys).map (fun k => k ++ "=?"))
      ∧ (buildModel exP exT).keys = keysOf exT.Columns
      ∧ List.Perm ((buildModel exP exT).keys)
          ((buildModel exP exT).partitioningKeys ++ (buildModel exP exT).clusteringKeys)
      ∧ ∀ k ∈ (buildModel exP exT).partitioningKeys ++ (buildModel exP exT).clusteringKeys,
          List.count (k ++ "=?") (((buildModel exP exT).keys).map (fun k2 => k2 ++ "=?")) = 1)
    ∧ (buildModel exP exT).SelectSingle = "Id=? AND Ts=?" := by
  refine ⟨by decide, selectSingle_full_key_equality exP exT (by decide), by decide⟩

theorem orderEntry_none_of_not_cluster (c : columnDef)
    (ha : c.Key ≠ "cluster-asc") (hd : c.Key ≠ "cluster-desc") : orderEntry c = none := by
  unfold orderEntry
  rw [if_neg ha, if_neg hd]

def exT3 : tableDef :=
  { exT with Columns :=
      [{ Name := "K1", CqlType := "text", Key := "partition", DeserializeFromBlob := "" },
       { Name := "C1", CqlType := "text", Key := "cluster", DeserializeFromBlob := "" },
       { Name := "C2", CqlType := "int", Key := "cluster", DeserializeFromBlob := "" }] }

/-- Claim C6: with zero clustering keys both clustering clauses are
empty; and when every clustering-role column has the plain `cluster`
role, the order clause is empty while the columns clause is the
leading-comma-joined name list. -/
theorem clustering_clauses (p : persistDef) (t : tableDef) :
    ((buildModel p t).clusteringKeys = [] →
      (buildModel p t).ClusteringColumns = "" ∧ (buildModel p t).ClusteringOrder = "")
    ∧ ((∀ c ∈ t.Columns, isClusterRoleB c.Key = true → c.Key = "cluster") →
      (buildModel p t).ClusteringOrder = ""
      ∧ ((buildModel p t).clusteringKeys = [] → (buildModel p t).ClusteringColumns = "")
      ∧ ((buildModel p t).clusteringKeys ≠ [] →
        (buildModel p t).ClusteringColumns
          = ", " ++ String.intercalate ", " (buildModel p t).clusteringKeys)) := by
  constructor
  · intro hck
    constructor
    · unfold _DAOModel.ClusteringColumns
      rw [if_pos hck]
    · have hfil : ∀ c ∈ t.Columns, ¬(isClusterRoleB c.Key = true) := by
        rw [buildModel_ck] at hck
        unfold ckOf at hck
        have hnil : t.Columns.filter (fun c => isClusterRoleB c.Key) = [] :=
          List.map_eq_nil_iff.1 hck
        exact List.filter_eq_nil_iff.1 hnil
      have hord : (buildModel p t).clusteringOrder = [] := by
        rw [buildModel_order]
        unfold orderClausesOf
        refine List.filterMap_eq_nil_iff.2 (fun c hc => ?_)
        have hncl := hfil c hc
        simp only [isClusterRoleB, Bool.or_eq_true, beq_iff_eq, not_or] at hncl
        exact orderEntry_none_of_not_cluster c hncl.1.2 hncl.2
      unfold _DAOModel.ClusteringOrder
      rw [if_pos hord]
  · intro hall
    have hord : (buildModel p t).clusteringOrder = [] := by
      rw [buildModel_order]
      unfold orderClausesOf
      refine List.filterMap_eq_nil_iff.2 (fun c hc => ?_)
      by_cases ha : c.Key = "cluster-asc"
      · exfalso
        have := hall c hc (by simp [isClusterRoleB, ha])
        rw [ha] at this
        exact absurd this (by decide)
      · by_cases hd : c.Key = "cluster-desc"
        · exfalso
          have := hall c hc (by simp [isClusterRoleB, hd])
          rw [hd] at this
          exact absurd this (by decide)
        · exact orderEntry_none_of_not_cluster c ha hd
    refine ⟨?_, ?_, ?_⟩
    · unfold _DAOModel.ClusteringOrder
      rw [if_pos hord]
    · intro h
      unfold _DAOModel.ClusteringColumns
      rw [if_pos h]
    · intro h
      unfold _DAOModel.ClusteringColumns
      rw [if_neg h]

/-- Witness for C6: a two-partition-key table with no clustering keys,
and a table whose two clustering keys both have the plain role. -/
theorem clustering_clauses_witness :
    ((buildModel exP exT2).clusteringKeys = [])
    ∧ ((buildModel exP exT2).ClusteringColumns = "" ∧ (buildModel exP exT2).ClusteringOrder = "")
    ∧ (∀ c ∈ exT3.Columns, isClusterRoleB c.Key = true → c.Key = "cluster")
    ∧ ((buildModel exP exT3).ClusteringOrder = ""
      ∧ ((buildModel exP exT3).clusteringKeys = [] → (buildModel exP exT3).ClusteringColumns = "")
      ∧ ((buildModel exP exT3).clusteringKeys ≠ [] →
        (buildModel exP exT3).ClusteringColumns
          = ", " ++ String.intercalate ", " (buildModel exP exT3).clusteringKeys))
    ∧ (buildModel exP exT3).ClusteringColumns = ", C1, C2" := by
  refine ⟨by decide, (clustering_clauses exP exT2).1 (by decide), by decide,
    (clustering_clauses exP exT3).2 (by decide), by decide⟩

/-- The five key roles the generator's switches recognize (`none` and
any unrecognized string both fall through every case). -/
def recognizedRoleB (k : String) : Bool :=
  isKeyRoleB k || k == "none"

/-- Rewriting an unrecognized key role to the explicit `none` role. -/
def normalizeKeyRole (c : columnDef) : columnDef :=
  if recognizedRoleB c.Key then c else { c with Key := "none" }

theorem normalizeKeyRole_Name (c : columnDef) : (normalizeKeyRole c).Name = c.Name := by
  unfold normalizeKeyRole
  split <;> rfl

theorem normalizeKeyRole_mkParam (c : columnDef) :
    mkParam (normalizeKeyRole c) = mkParam c := by
  unfold normalizeKeyRole
  split <;> rfl

theorem normalizeKeyRole_partitionB (c : columnDef) :
    ((normalizeKeyRole c).Key == "partition") = (c.Key == "partition") := by
  unfold normalizeKeyRole
  split
  · rfl
  · next h =>
    cases hb : c.Key == "partition" with
    | false => rfl
    | true => exact absurd (by simp [recognizedRoleB, isKeyRoleB, hb]) h
  
theorem normalizeKeyRole_clusterB (c : columnDef) :
    isClusterRoleB (normalizeKeyRole c).Key = isClusterRoleB c.Key := by
  unfold normalizeKeyRole
  split
  · rfl
  · next h =>
    cases hb : isClusterRoleB c.Key with
    | false => rfl
    | true => exact absurd (by simp [recognizedRoleB, isKeyRoleB, hb]) h

theorem normalizeKeyRole_keyB (c : columnDef) :
    isKeyRoleB (normalizeKeyRole c).Key = isKeyRoleB c.Key := by
  unfold isKeyRoleB
  rw [normalizeKeyRole_partitionB, normalizeKeyRole_clusterB]

theorem normalizeKeyRole_order (c : columnDef) :
    orderEntry (normalizeKeyRole c) = orderEntry c := by
  unfold normalizeKeyRole
  split
  · rfl
  · next h =>
    have ha : c.Key ≠ "cluster-asc" := fun hx =>
      h (by simp [recognizedRoleB, isKeyRoleB, isClusterRoleB, hx])
    have hd : c.Key ≠ "cluster-desc" := fun hx =>
      h (by simp [recognizedRoleB, isKeyRoleB, isClusterRoleB, hx])
    have h1 : orderEntry { c with Key := "none" } = none :=
      orderEntry_none_of_not_cluster _
        (by show ("none" : String) ≠ "cluster-asc"; decide)
        (by show ("none" : String) ≠ "cluster-desc"; decide)
    rw [h1, orderEntry_none_of_not_cluster c ha hd]

theorem keysOf_normalize (cols : List columnDef) :
    keysOf (cols.map normalizeKeyRole) = keysOf cols := by
  induction cols with
  | nil => rfl
  | cons c cs ih =>
    rw [List.map_cons, keysOf_cons, keysOf_cons, ih, normalizeKeyRole_keyB,
      normalizeKeyRole_Name]

theorem pkOf_normalize (cols : List columnDef) :
    pkOf (cols.map normalizeKeyRole) = pkOf cols := by
  induction cols with
  | nil => rfl
  | cons c cs ih =>
    rw [List.map_cons, pkOf_cons, pkOf_cons, ih, normalizeKeyRole_partitionB,
      normalizeKeyRole_Name]

theorem ckOf_normalize (cols : List columnDef) :
    ckOf (cols.map normalizeKeyRole) = ckOf cols := by
  induction cols with
  | nil => rfl
  | cons c cs ih =>
    rw [List.map_cons, ckOf_cons, ckOf_cons, ih, normalizeKeyRole_clusterB,
      normalizeKeyRole_Name]

theorem orderClausesOf_normalize (cols : List columnDef) :
    orderClausesOf (cols.map normalizeKeyRole) = orderClausesOf cols := by
  induction cols with
  | nil => rfl
  | cons c cs ih =>
    rw [List.map_cons, orderClausesOf_cons, orderClausesOf_cons, ih, normalizeKeyRole_order]

theorem mkParam_map_normalize (cols : List columnDef) :
    (cols.map normalizeKeyRole).map mkParam = cols.map mkParam := by
  rw [List.map_map]
  exact List.map_congr_left (fun c _ => normalizeKeyRole_mkParam c)

theorem normalizeKeyRole_mapGoType (c : columnDef) :
    mapGoType (normalizeKeyRole c).CqlType (normalizeKeyRole c).DeserializeFromBlob
      = mapGoType c.CqlType c.DeserializeFromBlob := by
  unfold normalizeKeyRole
  split <;> rfl

theorem jsonFlagOf_cons (c : columnDef) (cs : List columnDef) :
    jsonFlagOf (c :: cs)
      = ((mapGoType c.CqlType c.DeserializeFromBlob).includeJson || jsonFlagOf cs) := by
  simp [jsonFlagOf, List.any_cons]

theorem timeFlagOf_cons (c : columnDef) (cs : List columnDef) :
    timeFlagOf (c :: cs)
      = ((mapGoType c.CqlType c.DeserializeFromBlob).includeTime || timeFlagOf cs) := by
  simp [timeFlagOf, List.any_cons]

theorem jsonFlagOf_normalize (cols : List columnDef) :
    jsonFlagOf (cols.map normalizeKeyRole) = jsonFlagOf cols := by
  induction cols with
  | nil => rfl
  | cons c cs ih =>
    rw [List.map_cons, jsonFlagOf_cons, jsonFlagOf_cons, ih, normalizeKeyRole_mapGoType]

theorem timeFlagOf_normalize (cols : List columnDef) :
    timeFlagOf (cols.map normalizeKeyRole) = timeFlagOf cols := by
  induction cols with
  | nil => rfl
  | cons c cs ih =>
    rw [List.map_cons, timeFlagOf_cons, timeFlagOf_cons, ih, normalizeKeyRole_mapGoType]

theorem foldl_base (cols : List columnDef) : ∀ m : _DAOModel,
    (List.foldl buildStep m cols).Package = m.Package
    ∧ (List.foldl buildStep m cols).AdditionalImports = m.AdditionalImports
    ∧ (List.foldl buildStep m cols).Model = m.Model
    ∧ (List.foldl buildStep m cols).ModelImport = m.ModelImport
    ∧ (List.foldl buildStep m cols).DAO = m.DAO
    ∧ (List.foldl buildStep m cols).BoilerPlate = m.BoilerPlate
    ∧ (List.foldl buildStep m cols).Keyspace = m.Keyspace
    ∧ (List.foldl buildStep m cols).Table = m.Table := by
  induction cols with
  | nil => intro m; exact ⟨rfl, rfl, rfl, rfl, rfl, rfl, rfl, rfl⟩
  | cons c cs ih => intro m; exact ih (buildStep m c)

/-- Claim C10: every column lands exactly once, in input order, in the
emission model's column list; the four key lists are exactly the
filters by recognized key role; and rewriting every unrecognized key
role to `none` leaves the whole emission model unchanged, so an
unrecognized role behaves like a non-key column in every generated
fragment. -/
theorem column_role_invariants (p : persistDef) (t : tableDef) :
    (buildModel p t).Columns = t.Columns.map mkParam
    ∧ ((buildModel p t).Columns).map param.Name = t.Columns.map columnDef.Name
    ∧ (buildModel p t).partitioningKeys = pkOf t.Columns
    ∧ (buildModel p t).clusteringKeys = ckOf t.Columns
    ∧ (buildModel p t).clusteringOrder = orderClausesOf t.Columns
    ∧ (buildModel p t).keys = keysOf t.Columns
    ∧ buildModel p { t with Columns := t.Columns.map normalizeKeyRole } = buildModel p t := by
  refine ⟨buildModel_Columns p t, ?_, buildModel_pk p t, buildModel_ck p t,
    buildModel_order p t, buildModel_keys p t, ?_⟩
  · rw [buildModel_Columns, List.map_map]
    exact List.map_congr_left (fun c _ => rfl)
  · apply _DAOModel.ext
    · rw [buildModel, buildModel, (foldl_base _ _).1, (foldl_base _ _).1]; rfl
    · rw [buildModel, buildModel, (foldl_base _ _).2.1, (foldl_base _ _).2.1]; rfl
    · rw [buildModel_IncludeTime, buildModel_IncludeTime]
      exact timeFlagOf_normalize t.Columns
    · rw [buildModel_IncludeJson, buildModel_IncludeJson]
      exact jsonFlagOf_normalize t.Columns
    · rw [buildModel, buildModel, (foldl_base _ _).2.2.1, (foldl_base _ _).2.2.1]; rfl
    · rw [buildModel, buildModel, (foldl_base _ _).2.2.2.1, (foldl_base _ _).2.2.2.1]; rfl
    · rw [buildModel, buildModel, (foldl_base _ _).2.2.2.2.1, (foldl_base _ _).2.2.2.2.1]; rfl
    · rw [buildModel, buildModel, (foldl_base _ _).2.2.2.2.2.1, (foldl_base _ _).2.2.2.2.2.1]; rfl
    · rw [buildModel, buildModel, (foldl_base _ _).2.2.2.2.2.2.1, (foldl_base _ _).2.2.2.2.2.2.1]; rfl
    · rw [buildModel, buildModel, (foldl_base _ _).2.2.2.2.2.2.2, (foldl_base _ _).2.2.2.2.2.2.2]; rfl
    · rw [buildModel_Columns, buildModel_Columns]
      exact mkParam_map_normalize t.Columns
    · rw [buildModel_pk, buildModel_pk]
      exact pkOf_normalize t.Columns
    · rw [buildModel_ck, buildModel_ck]
      exact ckOf_normalize t.Columns
    · rw [buildModel_order, buildModel_order]
      exact orderClausesOf_normalize t.Columns
    · rw [buildModel_keys, buildModel_keys]
      exact keysOf_normalize t.Columns

/-! ## Semantics of the emitted per-element serialization loop

`serializeListBlock n` emits, for the `list<blob>` column `n`, a Go
loop over `r.n` that marshals each element, appends the marshalled
bytes on success and logs-and-skips the element on failure.
`serializeListSem` is that loop's semantics: `marshal` abstracts
`json.Marshal` (`none` = error), the first component collects the
values written in order, the second the elements logged and skipped.
`serializeMapSem` does the same for the `map<text,blob>` loop (one
iteration order of the Go map). -/

def serializeListSem {α β : Type} (marshal : α → Option β) : List α → List β × List α
  | [] => ([], [])
  | v :: vs =>
    let r := serializeListSem marshal vs
    match marshal v with
    | some b => (b :: r.1, r.2)
    | none => (r.1, v :: r.2)

def serializeMapSem {α β : Type} (marshal : α → Option β) :
    List (String × α) → List (String × β) × List (String × α)
  | [] => ([], [])
  | e :: es =>
    let r := serializeMapSem marshal es
    match marshal e.2 with
    | some b => ((e.1, b) :: r.1, r.2)
    | none => (r.1, e :: r.2)

theorem serializeListSem_values {α β : Type} (marshal : α → Option β) (xs : List α) :
    (serializeListSem marshal xs).1 = xs.filterMap marshal := by
  induction xs with
  | nil => rfl
  | cons v vs ih =>
    rw [serializeListSem, List.filterMap_cons]
    cases h : marshal v <;> simp [h, ih]

theorem serializeListSem_logged {α β : Type} (marshal : α → Option β) (xs : List α) :
    (serializeListSem marshal xs).2 = xs.filter (fun v => (marshal v).isNone) := by
  induction xs with
  | nil => rfl
  | cons v vs ih =>
    rw [serializeListSem, List.filter_cons]
    cases h : marshal v <;> simp [h, ih]

theorem serializeMapSem_values {α β : Type} (marshal : α → Option β)
    (es : List (String × α)) :
    (serializeMapSem marshal es).1
      = es.filterMap (fun e => (marshal e.2).map (fun b => (e.1, b))) := by
  induction es with
  | nil => rfl
  | cons e es ih =>
    rw [serializeMapSem, List.filterMap_cons]
    cases h : marshal e.2 <;> simp [h, ih]

theorem serializeMapSem_logged {α β : Type} (marshal : α → Option β)
    (es : List (String × α)) :
    (serializeMapSem marshal es).2 = es.filter (fun e => (marshal e.2).isNone) := by
  induction es with
  | nil => rfl
  | cons e es ih =>
    rw [serializeMapSem, List.filter_cons]
    cases h : marshal e.2 <;> simp [h, ih]

theorem serializeListSem_length {α β : Type} (marshal : α → Option β) (xs : List α) :
    xs.length = (serializeListSem marshal xs).1.length + (serializeListSem marshal xs).2.length := by
  induction xs with
  | nil => rfl
  | cons v vs ih =>
    rw [serializeListSem]
    cases h : marshal v <;> simp [h, List.length_cons, ih] <;> omega

/-- Claim C8: the serialization block emitted for every serialized
column iterates the source field; a failed element marshal puts the
element on the logged list and the loop continues, so the written
values are exactly the successful marshals in order, the logged
elements exactly the failures, every element is accounted for (the
loop never aborts), and the emitted block is present for every
serialized `list<blob>`/`map<text,blob>` column. -/
theorem serialize_skips_failed_elements {α β : Type} (marshal : α → Option β)
    (xs : List α) (es : List (String × α)) (n g t : String) :
    (serializeListSem marshal xs).1 = xs.filterMap marshal
    ∧ (serializeListSem marshal xs).2 = xs.filter (fun v => (marshal v).isNone)
    ∧ xs.length = (serializeListSem marshal xs).1.length + (serializeListSem marshal xs).2.length
    ∧ (serializeMapSem marshal es).1
        = es.filterMap (fun e => (marshal e.2).map (fun b => (e.1, b)))
    ∧ (serializeMapSem marshal es).2 = es.filter (fun e => (marshal e.2).isNone)
    ∧ serializeFragment { Name := n, GoType := g, CqlType := "list<blob>", SerializedType := t }
        = (if t = "" then none else some (serializeListBlock n))
    ∧ serializeFragment { Name := n, GoType := g, CqlType := "map<text,blob>", SerializedType := t }
        = (if t = "" then none else some (serializeMapBlock n)) :=
  ⟨serializeListSem_values marshal xs, serializeListSem_logged marshal xs,
   serializeListSem_length marshal xs, serializeMapSem_values marshal es,
   serializeMapSem_logged marshal es,
   by by_cases h : t = "" <;> simp [serializeFragment, h],
   by by_cases h : t = "" <;> simp [serializeFragment, h]⟩

/-- Stepping one fragment whose own rendering succeeds. -/
theorem renderFrags_cons_eq (br : String → Option String) (jr : _DAOModel → String)
    (m : _DAOModel) (f : Frag) (s : String) (fs : List Frag)
    (hf : renderFrag br jr m f = some s) :
    renderFrags br jr m (f :: fs)
      = match renderFrags br jr m fs with
        | some t => some (s ++ t)
        | none => none := by
  rw [renderFrags, hf]
  cases hfs : renderFrags br jr m fs <;> rfl

/-- Everything after the boilerplate hook renders to the stream-record
type declaration followed by the rest of the DAO. -/
theorem renderFrags_daoFragsB (br : String → Option String) (jr : _DAOModel → String)
    (m : _DAOModel) :
    renderFrags br jr m daoFragsB
      = match renderFrags br jr m daoFragsB1 with
        | some r2 => some ("\n\ntype " ++ (m.Model ++ ("Stream struct \x7b\n  DTO *" ++ r2)))
        | none => none := by
  show renderFrags br jr m (Frag.lit "\n\ntype " :: Frag.model
      :: Frag.lit "Stream struct \x7b\n  DTO *" :: daoFragsB1) = _
  rw [renderFrags_cons_eq br jr m (Frag.lit "\n\ntype ") "\n\ntype "
      (Frag.model :: Frag.lit "Stream struct \x7b\n  DTO *" :: daoFragsB1) rfl]
  rw [renderFrags_cons_eq br jr m Frag.model m.Model
      (Frag.lit "Stream struct \x7b\n  DTO *" :: daoFragsB1) rfl]
  rw [renderFrags_cons_eq br jr m (Frag.lit "Stream struct \x7b\n  DTO *")
      "Stream struct \x7b\n  DTO *" daoFragsB1 rfl]
  cases hr : renderFrags br jr m daoFragsB1 with
  | none => rfl
  | some r2 => rfl

/-- Claim C9: the boilerplate hook occupies exactly one fixed spot in
the DAO template; when a boilerplate fragment is configured its
rendered text is spliced there — between the import block and the
stream-record type declaration — and when none is configured nothing
is spliced (the two neighbouring chunks meet directly); everything
after the splice point starts with the stream-record type
declaration. -/
theorem boilerplate_splice (m : _DAOModel) (br : String → Option String)
    (jr : _DAOModel → String) :
    (∀ text rest, m.BoilerPlate ≠ "" → br m.BoilerPlate = some text →
      renderFrags br jr m daoFragsB = some rest →
      renderDAO br jr m = some (renderA jr m ++ (text ++ rest)))
    ∧ (∀ rest, m.BoilerPlate = "" →
      renderFrags br jr m daoFragsB = some rest →
      renderDAO br jr m = some (renderA jr m ++ rest))
    ∧ List.count Frag.injectBoilerPlate daoFrags = 1
    ∧ (∀ rest, renderFrags br jr m daoFragsB = some rest →
      ∃ r2, rest = "\n\ntype " ++ (m.Model ++ ("Stream struct \x7b\n  DTO *" ++ r2))) := by
  refine ⟨?_, ?_, by decide, ?_⟩
  · intro text rest hb hbr hrest
    have hA := renderFragsA_eq br jr m
    have hcons : renderFrags br jr m (Frag.injectBoilerPlate :: daoFragsB)
        = some (text ++ rest) := by
      rw [renderFrags]
      have hinj : renderFrag br jr m Frag.injectBoilerPlate = some text := by
        show (if m.BoilerPlate = "" then some "" else br m.BoilerPlate) = some text
        rw [if_neg hb, hbr]
      rw [hinj, hrest]
    exact renderFrags_append_some br jr m hA hcons
  · intro rest hbp hrest
    have hA := renderFragsA_eq br jr m
    have hcons : renderFrags br jr m (Frag.injectBoilerPlate :: daoFragsB)
        = some rest := by
      rw [renderFrags]
      have hinj : renderFrag br jr m Frag.injectBoilerPlate = some "" := by
        show (if m.BoilerPlate = "" then some "" else br m.BoilerPlate) = some ""
        rw [if_pos hbp]
      rw [hinj, hrest]
      show some ("" ++ rest) = some rest
      rw [String.empty_append]
    exact renderFrags_append_some br jr m hA hcons
  · intro rest hrest
    rw [renderFrags_daoFragsB] at hrest
    cases hr : renderFrags br jr m daoFragsB1 with
    | none =>
      rw [hr] at hrest
      exact absurd hrest (by simp)
    | some r2 =>
      rw [hr] at hrest
      refine ⟨r2, ?_⟩
      have h2 : some ("\n\ntype " ++ (m.Model ++ ("Stream struct \x7b\n  DTO *" ++ r2)))
          = some rest := hrest
      injection h2 with h2
      exact h2.symm

/-- Witness for C9: a concrete model with and without a configured
boilerplate fragment. -/
theorem boilerplate_splice_witness :
    (exM1.BoilerPlate = "")
    ∧ ({ exM1 with BoilerPlate := "plate.tmpl" }.BoilerPlate ≠ "")
    ∧ (∃ rest, renderFrags exBr exJr exM1 daoFragsB = some rest
        ∧ renderDAO exBr exJr exM1 = some (renderA exJr exM1 ++ rest))
    ∧ (∃ rest, renderFrags exBr exJr { exM1 with BoilerPlate := "plate.tmpl" } daoFragsB = some rest
        ∧ renderDAO exBr exJr { exM1 with BoilerPlate := "plate.tmpl" }
            = some (renderA exJr { exM1 with BoilerPlate := "plate.tmpl" }
                ++ ("// boilerplate\n" ++ rest))) := by
  refine ⟨rfl, by decide, ?_, ?_⟩
  · obtain ⟨rest, hrest⟩ : ∃ rest, renderFrags exBr exJr exM1 daoFragsB = some rest := ⟨_, rfl⟩
    exact ⟨rest, hrest, (boilerplate_splice exM1 exBr exJr).2.1 rest rfl hrest⟩
  · obtain ⟨rest, hrest⟩ : ∃ rest,
        renderFrags exBr exJr { exM1 with BoilerPlate := "plate.tmpl" } daoFragsB = some rest :=
      ⟨_, rfl⟩
    exact ⟨rest, hrest,
      (boilerplate_splice { exM1 with BoilerPlate := "plate.tmpl" } exBr exJr).1
        "// boilerplate\n" rest (by decide) rfl hrest⟩

theorem splitRawBytesList (X : String) :
    (" " : String) ++ ("[][]byte" ++ X) = " []" ++ ("[]byte" ++ X) := by
  rw [← String.append_assoc, ← String.append_assoc]
  rfl

theorem splitRawBytesMap (X : String) :
    (" " : String) ++ ("map[string][]byte" ++ X) = " map[string]" ++ ("[]byte" ++ X) := by
  rw [← String.append_assoc, ← String.append_assoc]
  rfl

theorem strAppendCancelLeft {a x y : String} (h : a ++ x = a ++ y) : x = y := by
  apply String.ext
  have h2 := congrArg String.data h
  simp only [String.data_append] at h2
  exact List.append_cancel_left h2

theorem buildModel_ModelImport (p : persistDef) (t : tableDef) :
    (buildModel p t).ModelImport = p.ModelImport := by
  rw [buildModel, (foldl_base _ _).2.2.2.1]
  rfl

def exC : columnDef :=
  { Name := "Tags", CqlType := "list<blob>", Key := "", DeserializeFromBlob := "Tag" }

/-- Claim C2: a column with a non-empty deserialize target and storage
type `list<blob>` or `map<text,blob>` is marked serialized with
element type equal to the target, sets the structured-serialization
flag for imports on the emission model, and its DTO field is a
sequence/mapping of the (package-localized) target type — never the
raw bytes type. -/
theorem serialized_blob_collection_fields (p : persistDef) (t : tableDef) (c : columnDef)
    (hc : c ∈ t.Columns) (hd : c.DeserializeFromBlob ≠ "")
    (ht : c.CqlType = "list<blob>" ∨ c.CqlType = "map<text,blob>") :
    mkParam c ∈ (buildModel p t).Columns
    ∧ (mkParam c).SerializedType = c.DeserializeFromBlob
    ∧ (buildModel p t).IncludeJson = true
    ∧ (buildModel p t).ModelFields
        = String.intercalate "\n" (((buildModel p t).Columns).map (fieldFor p.ModelImport))
    ∧ (c.CqlType = "list<blob>" →
        fieldFor p.ModelImport (mkParam c)
          = c.Name ++ " []" ++ stripModelImport p.ModelImport c.DeserializeFromBlob
            ++ " `json:\"" ++ jsonTag c.Name ++ "\"`")
    ∧ (c.CqlType = "map<text,blob>" →
        fieldFor p.ModelImport (mkParam c)
          = c.Name ++ " map[string]" ++ stripModelImport p.ModelImport c.DeserializeFromBlob
            ++ " `json:\"" ++ jsonTag c.Name ++ "\"`")
    ∧ (containsSub (p.ModelImport ++ ".").data c.DeserializeFromBlob.data = false →
        stripModelImport p.ModelImport c.DeserializeFromBlob = c.DeserializeFromBlob)
    ∧ (c.CqlType = "list<blob>" →
        stripModelImport p.ModelImport c.DeserializeFromBlob ≠ "[]byte" →
        fieldFor p.ModelImport (mkParam c)
          ≠ c.Name ++ " " ++ "[][]byte" ++ " `json:\"" ++ jsonTag c.Name ++ "\"`")
    ∧ (c.CqlType = "map<text,blob>" →
        stripModelImport p.ModelImport c.DeserializeFromBlob ≠ "[]byte" →
        fieldFor p.ModelImport (mkParam c)
          ≠ c.Name ++ " " ++ "map[string][]byte" ++ " `json:\"" ++ jsonTag c.Name ++ "\"`") := by
  have hmk : mkParam c
      = { Name := c.Name, GoType := (mapGoType c.CqlType c.DeserializeFromBlob).goType,
          CqlType := c.CqlType,
          SerializedType := (mapGoType c.CqlType c.DeserializeFromBlob).serializedType } := rfl
  have hser : (mkParam c).SerializedType = c.DeserializeFromBlob := by
    rcases ht with hcl | hcl <;>
      (unfold mkParam; rw [hcl]; rfl)
  have hflag : (mapGoType c.CqlType c.DeserializeFromBlob).includeJson = true := by
    rcases ht with hcl | hcl
    · rw [hcl, show (mapGoType "list<blob>" c.DeserializeFromBlob).includeJson
          = !(c.DeserializeFromBlob == "") from rfl]
      simp [hd]
    · rw [hcl, show (mapGoType "map<text,blob>" c.DeserializeFromBlob).includeJson
          = !(c.DeserializeFromBlob == "") from rfl]
      simp [hd]
  have hfieldList : c.CqlType = "list<blob>" →
      fieldFor p.ModelImport (mkParam c)
        = c.Name ++ " []" ++ stripModelImport p.ModelImport c.DeserializeFromBlob
          ++ " `json:\"" ++ jsonTag c.Name ++ "\"`" := by
    intro hcl
    have hser2 := hser
    unfold fieldFor
    rw [hser2, if_neg hd, hmk]
    rw [hcl]
    rfl
  have hfieldMap : c.CqlType = "map<text,blob>" →
      fieldFor p.ModelImport (mkParam c)
        = c.Name ++ " map[string]" ++ stripModelImport p.ModelImport c.DeserializeFromBlob
          ++ " `json:\"" ++ jsonTag c.Name ++ "\"`" := by
    intro hcl
    have hser2 := hser
    unfold fieldFor
    rw [hser2, if_neg hd, hmk]
    rw [hcl]
    rfl
  refine ⟨?_, hser, ?_, ?_, hfieldList, hfieldMap, ?_, ?_, ?_⟩
  · rw [buildModel_Columns]
    exact List.mem_map_of_mem mkParam hc
  · rw [buildModel_IncludeJson]
    exact List.any_eq_true.2 ⟨c, hc, hflag⟩
  · unfold _DAOModel.ModelFields
    rw [buildModel_ModelImport]
  · intro hns
    unfold stripModelImport
    rw [if_neg (by rw [hns]; exact Bool.false_ne_true)]
  · intro hcl hne heq
    rw [hfieldList hcl] at heq
    simp only [String.append_assoc] at heq
    rw [splitRawBytesList (" `json:\"" ++ (jsonTag c.Name ++ "\"`"))] at heq
    have h1 := strAppendCancelLeft (strAppendCancelLeft heq)
    exact hne (strAppendRightInj _ h1)
  · intro hcl hne heq
    rw [hfieldMap hcl] at heq
    simp only [String.append_assoc] at heq
    rw [splitRawBytesMap (" `json:\"" ++ (jsonTag c.Name ++ "\"`"))] at heq
    have h1 := strAppendCancelLeft (strAppendCancelLeft heq)
    exact hne (strAppendRightInj _ h1)

/-- Witness for C2: the serialized `list<blob>` column `Tags` with
deserialize target `Tag`. -/
theorem serialized_blob_collection_fields_witness :
    (exC ∈ exT.Columns) ∧ (exC.DeserializeFromBlob ≠ "")
    ∧ (exC.CqlType = "list<blob>" ∨ exC.CqlType = "map<text,blob>")
    ∧ (mkParam exC ∈ (buildModel exP exT).Columns
      ∧ (mkParam exC).SerializedType = exC.DeserializeFromBlob
      ∧ (buildModel exP exT).IncludeJson = true
      ∧ (buildModel exP exT).ModelFields
          = String.intercalate "\n" (((buildModel exP exT).Columns).map (fieldFor exP.ModelImport))
      ∧ (exC.CqlType = "list<blob>" →
          fieldFor exP.ModelImport (mkParam exC)
            = exC.Name ++ " []" ++ stripModelImport exP.ModelImport exC.DeserializeFromBlob
              ++ " `json:\"" ++ jsonTag exC.Name ++ "\"`")
      ∧ (exC.CqlType = "map<text,blob>" →
          fieldFor exP.ModelImport (mkParam exC)
            = exC.Name ++ " map[string]" ++ stripModelImport exP.ModelImport exC.DeserializeFromBlob
              ++ " `json:\"" ++ jsonTag exC.Name ++ "\"`")
      ∧ (containsSub (exP.ModelImport ++ ".").data exC.DeserializeFromBlob.data = false →
          stripModelImport exP.ModelImport exC.DeserializeFromBlob = exC.DeserializeFromBlob)
      ∧ (exC.CqlType = "list<blob>" →
          stripModelImport exP.ModelImport exC.DeserializeFromBlob ≠ "[]byte" →
          fieldFor exP.ModelImport (mkParam exC)
            ≠ exC.Name ++ " " ++ "[][]byte" ++ " `json:\"" ++ jsonTag exC.Name ++ "\"`")
      ∧ (exC.CqlType = "map<text,blob>" →
          stripModelImport exP.ModelImport exC.DeserializeFromBlob ≠ "[]byte" →
          fieldFor exP.ModelImport (mkParam exC)
            ≠ exC.Name ++ " " ++ "map[string][]byte" ++ " `json:\"" ++ jsonTag exC.Name ++ "\"`"))
    ∧ fieldFor exP.ModelImport (mkParam exC) = "Tags []Tag `json:\"tags\"`" := by
  exact ⟨by decide, by decide, Or.inl rfl,
    serialized_blob_collection_fields exP exT exC (by decide) (by decide) (Or.inl rfl),
    by decide⟩
